import Mathlib

/-!
Shallow embedding of the asynchronous message-protocol session manager in
`python/qemu/aqmp/protocol.py` and its helper `python/qemu/aqmp/util.py`
(the `AsyncProtocol` class), together with theorems settling the claims
about its connect/disconnect lifecycle, loop termination discipline, and
error propagation.

Modelling conventions:
* Python exceptions are values of the inductive `Exc`.  Object identity
  (Python `is`) is modelled by equality of `Exc` values, under the
  convention that distinct exception allocations carry distinct numeric
  ids.
* An `asyncio.Future`/`Task` is a `Task`: `result = none` while pending,
  `some r` once done.  Awaiting a done task yields `awaitTask`.
* Suspension (an `await` that never resumes in the modelled scenario) is
  an `Option` result of `none`.
* Fallible code returns `Except Exc _` or pairs a result with
  `Option Exc` (the exception that propagates, if any).
-/

namespace AQMP

/-- Python exceptions relevant to the protocol module.  `cancelled` is
`asyncio.CancelledError`; `baseError` stands for a `BaseException` that is
not an `Exception` (e.g. `KeyboardInterrupt`); the rest are `Exception`
subclasses.  The numeric ids model object identity: distinct allocations
get distinct ids. -/
inductive Exc where
  | cancelled
  | oserror (id : Nat)
  | connectError (msg : String) (root : Exc)
  | stateError
  | assertionError
  | valueError
  | baseError (id : Nat)
  deriving DecidableEq, Repr

/-- Whether the exception is an instance of Python `Exception`
(`isinstance(err, Exception)`).  `CancelledError` derives from
`BaseException` only (Python 3.8+), matching the code's comment. -/
def Exc.isException : Exc → Bool
  | .cancelled => false
  | .baseError _ => false
  | _ => true

/-- The final disposition of an `asyncio` task. -/
inductive TaskResult where
  | ok
  | error (e : Exc)
  | cancelled
  deriving DecidableEq, Repr

/-- An `asyncio.Future`: `result = none` while still pending. -/
structure Task where
  result : Option TaskResult
  deriving DecidableEq, Repr

/-- `Future.done()`. -/
def Task.done (t : Task) : Bool := t.result.isSome

/-- Awaiting a done task: returns `none` on normal completion, the
exception if it raised, `CancelledError` if it was cancelled. -/
def awaitTask (t : Task) : Option Exc :=
  match t.result with
  | some (.error e) => some e
  | some .cancelled => some .cancelled
  | _ => none

/-- The `_done` helper of `_bh_disconnect`:
`task is not None and task.done()`. -/
def taskDone : Option Task → Bool
  | none => false
  | some t => t.done

/-- The `_exception` helper of `_bh_disconnect`: `None` if the task is
absent or pending, else `task.exception()`.  `Future.exception()` raises
`CancelledError` when the task was cancelled, hence the `Except`. -/
def taskExc : Option Task → Except Exc (Option Exc)
  | none => .ok none
  | some t =>
    match t.result with
    | none => .ok none
    | some .ok => .ok none
    | some (.error e) => .ok (some e)
    | some .cancelled => .error .cancelled

/-- An `asyncio.StreamWriter` together with its write transport's flow
control state: the low and high water marks, the number of buffered
outgoing bytes, and whether the transport is closing. -/
structure StreamWriter where
  low : Nat
  high : Nat
  buffered : Nat
  closing : Bool
  deriving DecidableEq, Repr

/-- The asyncio `StreamWriter.drain` contract: on success it returns once
the amount of buffered data has dropped to the high-water mark or below
(it does not promise an empty buffer).  `fail` injects the environment's
choice of an I/O failure, in which case the buffer is unchanged. -/
def drain (w : StreamWriter) (fail : Option Exc) : Except Exc StreamWriter :=
  match fail with
  | some e => .error e
  | none => .ok { w with buffered := min w.buffered w.high }

/-- `util.flush`: read the limits (`get_write_buffer_limits` returns
`(low, high)`), set both to 0, drain, and in a `finally` block restore the
original limits (`set_write_buffer_limits(high, low)`, whose parameters
are `(high, low)`).  Returns the final writer state and the exception
that propagates, if any. -/
def flush (w : StreamWriter) (drainFail : Option Exc) :
    StreamWriter × Option Exc :=
  let low := w.low
  let high := w.high
  let w1 : StreamWriter := { w with low := 0, high := 0 }
  match drain w1 drainFail with
  | .ok w2 => ({ w2 with low := low, high := high }, none)
  | .error e => ({ w1 with low := low, high := high }, some e)

/-- An `asyncio.Queue`: the pending items in FIFO order, plus the count of
unfinished items (`put` increments it, `task_done` decrements it; `get`
leaves it untouched). -/
structure OutQueue (α : Type) where
  items : List α
  unfinished : Nat
  deriving DecidableEq, Repr

/-- `Queue.put_nowait` (the unbounded queue never blocks). -/
def OutQueue.put {α : Type} (q : OutQueue α) (m : α) : OutQueue α :=
  { items := q.items ++ [m], unfinished := q.unfinished + 1 }

/-- `Queue.get`: pops the head; `none` models suspension on an empty
queue. -/
def OutQueue.get {α : Type} (q : OutQueue α) : Option (α × OutQueue α) :=
  match q.items with
  | [] => none
  | m :: rest => some (m, { q with items := rest })

/-- `Queue.task_done`: raises `ValueError` when called more times than
there were items placed in the queue. -/
def OutQueue.taskDone {α : Type} (q : OutQueue α) : Except Exc (OutQueue α) :=
  if q.unfinished = 0 then .error .valueError
  else .ok { q with unfinished := q.unfinished - 1 }

/-- `Queue.join` resumes exactly when the unfinished count is zero. -/
def OutQueue.joinReady {α : Type} (q : OutQueue α) : Bool :=
  q.unfinished = 0

/-- Messages are opaque to the session manager (`AsyncProtocol` is generic
over `T`); the model fixes a countable abstract message type. -/
abbrev Msg := Nat

/-- The mutable fields of `AsyncProtocol` set up by `__init__`:
the stream pair, the outgoing queue, and the four task handles
(`_reader_task`, `_writer_task`, their `asyncio.gather` aggregate
`_bh_tasks`, and `_dc_task`). -/
structure ProtocolState where
  reader : Bool
  writer : Option StreamWriter
  outgoing : OutQueue Msg
  reader_task : Option Task
  writer_task : Option Task
  bh_tasks : Option Task
  dc_task : Option Task
  deriving DecidableEq, Repr

/-- `AsyncProtocol.__init__`: every handle starts empty. -/
def initState : ProtocolState :=
  { reader := false, writer := none, outgoing := ⟨[], 0⟩,
    reader_task := none, writer_task := none,
    bh_tasks := none, dc_task := none }

/-- `_schedule_disconnect`: create the disconnect task only when the
handle is empty (`if not self._dc_task`); a `Future` object is always
truthy, so the test is exactly `self._dc_task is None`.  `fresh` is the
task that `create_task(self._bh_disconnect())` would return. -/
def schedule_disconnect (s : ProtocolState) (fresh : Task) : ProtocolState :=
  match s.dc_task with
  | some _ => s
  | none => { s with dc_task := some fresh }

/-- `_bh_loop_forever(async_fn)`: `while True: await async_fn()` runs
until the body raises (a cooperative cancellation delivered at an await
point also surfaces as `CancelledError` from the body); `e` is that
terminating exception.  `CancelledError` is swallowed and the loop
returns cleanly; any other exception first schedules a disconnect and is
then re-raised, becoming the loop task's exception. -/
def bh_loop_forever (s : ProtocolState) (fresh : Task) (e : Exc) :
    ProtocolState × Option Exc :=
  if e = .cancelled then (s, none)
  else (schedule_disconnect s fresh, some e)

/-- One event inside a writer-loop iteration, in program order. -/
inductive SendEvent where
  | dequeue (m : Msg)
  | sendAttempt (m : Msg) (r : Option Exc)
  | taskDoneCall
  deriving DecidableEq, Repr

/-- `_bh_send_message`: `msg = await self._outgoing.get()`, then
`try: await self._send(msg)` with `finally: self._outgoing.task_done()`.
`sendExc` is the environment's verdict on `_send` for each message
(`none` = success).  Returns `none` when the iteration suspends on an
empty queue; otherwise the queue afterwards, the exception propagating
out of the iteration, and the ordered event trace.  An exception from
`task_done` in the `finally` block replaces the in-flight one. -/
def bh_send_message (q : OutQueue Msg) (sendExc : Msg → Option Exc) :
    Option (OutQueue Msg × Option Exc × List SendEvent) :=
  match q.items with
  | [] => none
  | m :: rest =>
    let q1 : OutQueue Msg := { q with items := rest }
    let se := sendExc m
    let evs := [SendEvent.dequeue m, SendEvent.sendAttempt m se,
                SendEvent.taskDoneCall]
    match q1.taskDone with
    | .ok q2 => some (q2, se, evs)
    | .error ve => some (q1, some ve, evs)

/-- One observable teardown action of the disconnect orchestrator, in
program order. -/
inductive Action where
  | queueJoin
  | flushWriter
  | cancelWriter
  | waitWriter
  | cancelReader
  | waitReader
  | closeWriter
  | waitClosed
  deriving DecidableEq, Repr

/-- `_bh_stop_writer(force)`: return immediately when the writer task is
absent or already done; otherwise, unless forced, first block on
`self._outgoing.join()` and (when a stream is attached) `flush` it, and
only then `cancel()` the writer task and `asyncio.wait` on it (which
never re-raises the task's exception). -/
def bh_stop_writer (s : ProtocolState) (force : Bool) : List Action :=
  match s.writer_task with
  | none => []
  | some wt =>
    if wt.done then []
    else
      (if force then [] else
        Action.queueJoin ::
          (if s.writer.isSome then [Action.flushWriter] else [])) ++
      [Action.cancelWriter, Action.waitWriter]

/-- `_bh_stop_reader`: cancel and wait unless the reader task is absent
or already done; never re-raises the task's exception. -/
def bh_stop_reader (s : ProtocolState) : List Action :=
  match s.reader_task with
  | none => []
  | some rt =>
    if rt.done then []
    else [Action.cancelReader, Action.waitReader]

/-- The `except Exception` handler around `await wait_closed(self._writer)`
in `_bh_disconnect`: a non-`Exception` fault is not caught at all; a
caught fault is suppressed when it `is` (object identity, modelled as
equality of ids) the exception of the reader or writer task, evaluated
in that order with `all`'s short-circuit; inspecting a cancelled task's
exception itself raises `CancelledError`, which then propagates.
Returns the exception escaping the handler (`none` = suppressed). -/
def close_except_handler (err : Exc) (rt wt : Option Task) : Option Exc :=
  if !err.isException then some err
  else
    match taskExc rt with
    | .error e => some e
    | .ok re =>
      if re = some err then none
      else
        match taskExc wt with
        | .error e => some e
        | .ok we => if we = some err then none else some err

/-- `_bh_disconnect`: compute `error_pathway` (some loop task already
done), stop the writer with that flag, stop the reader, then close the
writer stream (skipping `close()` when already closing) and wait for the
close, filtering a close fault through `close_except_handler`.
`closeExc` is the environment's outcome of `wait_closed`.  Returns the
ordered action trace and the exception propagating out of the disconnect
task, if any. -/
def bh_disconnect (s : ProtocolState) (closeExc : Option Exc) :
    List Action × Option Exc :=
  let error_pathway := taskDone s.reader_task || taskDone s.writer_task
  let acts := bh_stop_writer s error_pathway ++ bh_stop_reader s
  match s.writer with
  | none => (acts, none)
  | some w =>
    let acts2 := acts ++
      (if !w.closing then [Action.closeWriter] else []) ++ [Action.waitClosed]
    match closeExc with
    | none => (acts2, none)
    | some e => (acts2, close_except_handler e s.reader_task s.writer_task)

/-- The body of `_paranoid_task_erase` after the assertion, i.e. the
expression `None if (task and task.done()) else task`: an unfinished
task is handed back, never discarded. -/
def eraseExpr (t : Option Task) : Option Task :=
  match t with
  | none => none
  | some tk => if tk.done then none else some tk

/-- `_paranoid_task_erase`: assert the task is absent or done, then erase
it.  A pending task makes the assertion raise `AssertionError`. -/
def paranoidTaskErase (t : Option Task) : Except Exc (Option Task) :=
  match t with
  | none => .ok none
  | some tk => if tk.done then .ok none else .error .assertionError

/-- `_cleanup`: paranoia-erase `_dc_task`, `_reader_task`, `_writer_task`
and `_bh_tasks` in that order, then clear the stream pair.  (On an
assertion failure the exception propagates.) -/
def cleanup (s : ProtocolState) : Except Exc ProtocolState := do
  let dc ← paranoidTaskErase s.dc_task
  let rt ← paranoidTaskErase s.reader_task
  let wt ← paranoidTaskErase s.writer_task
  let bt ← paranoidTaskErase s.bh_tasks
  return { s with dc_task := dc, reader_task := rt, writer_task := wt,
                  bh_tasks := bt, reader := false, writer := none }

/-- `_wait_disconnect`: `assert self._dc_task` (before the `try`, so a
missing disconnect task raises without running cleanup); await the
disconnect task, then — when present — await `_bh_tasks` to re-raise the
first reader/writer failure; `finally: self._cleanup()`, whose own
exception would replace the in-flight one.  On `.ok` returns the reset
state and the exception `_wait_disconnect` re-raises (`none` if it
returns normally). -/
def wait_disconnect (s : ProtocolState) : Except Exc (ProtocolState × Option Exc) :=
  match s.dc_task with
  | none => .error .assertionError
  | some dct =>
    let raised :=
      match awaitTask dct with
      | some e => some e
      | none =>
        match s.bh_tasks with
        | none => none
        | some bt => awaitTask bt
    match cleanup s with
    | .ok s2 => .ok (s2, raised)
    | .error ce => .error ce

/-- The failure a finished task contributes when awaited: none on normal
return, its exception, or `CancelledError` when it ended cancelled. -/
def resultFailure : TaskResult → Option Exc
  | .ok => none
  | .error e => some e
  | .cancelled => some .cancelled

/-- `asyncio.gather(reader_task, writer_task)`: the aggregate raises the
chronologically first failure among the two, which the model renders
with the reader's failure inspected first (the source leaves the
tie-break to gather's unspecified order; no claim depends on it). -/
def gatherFirstFailure (r w : TaskResult) : Option Exc :=
  match resultFailure r with
  | some e => some e
  | none => resultFailure w

/-- The `_bh_tasks` aggregate as a done task, given the final results of
the reader and writer tasks. -/
def gatherTask (r w : TaskResult) : Task :=
  match gatherFirstFailure r w with
  | none => ⟨some .ok⟩
  | some e => ⟨some (.error e)⟩

/-- `_new_session`'s `except BaseException` handler: run
`await self.disconnect()` (whose own exception, `disc`, would replace the
in-flight one), then re-raise `CancelledError` verbatim, wrap an ordinary
`Exception` into `ConnectError("Failed to establish " + phase)`, and
re-raise any other `BaseException` unwrapped. -/
def connect_failure_handler (phase : String) (err : Exc)
    (disc : Except Exc Unit) : Except Exc Unit :=
  match disc with
  | .error d => .error d
  | .ok _ =>
    if err = .cancelled then .error err
    else if err.isException then
      .error (.connectError ("Failed to establish " ++ phase) err)
    else .error err

/-- `_new_session`: try the connection phase then the session phase;
`conn` and `sess` are the environment outcomes of
`_establish_connection` and `_establish_session`, and `disc` the outcome
of the `disconnect()` the handler performs.  The boolean records whether
the full disconnect/cleanup path was run (it is run exactly on the
failure paths, before anything is raised). -/
def new_session (conn sess disc : Except Exc Unit) : Bool × Except Exc Unit :=
  match conn with
  | .error err => (true, connect_failure_handler "connection" err disc)
  | .ok _ =>
    match sess with
    | .error err => (true, connect_failure_handler "session" err disc)
    | .ok _ => (false, .ok ())

/-- A task handle is quiesced when it is absent or its task is done —
the precondition under which `_cleanup`'s assertions cannot fire. -/
def handleQuiesced : Option Task → Bool
  | none => true
  | some t => t.done

/-- A task handle on which `_bh_disconnect`'s `_exception` helper is
well-defined (its task did not end in the cancelled state, where
`Future.exception()` would itself raise). -/
def notCancelledState : Option Task → Bool
  | some ⟨some .cancelled⟩ => false
  | _ => true

/-- The value `_exception` returns on a handle that is not in the
cancelled state: the captured exception of a done task, else `None`. -/
def taskExcOk : Option Task → Option Exc
  | some ⟨some (.error e)⟩ => some e
  | _ => none

/-- The session lifecycle states of the specification. -/
inductive Runstate where
  | IDLE
  | CONNECTING
  | RUNNING
  | DISCONNECTING
  deriving DecidableEq, Repr

/-- A session together with its lifecycle state and a count of
connections ever started, for observing that a rejected `connect` starts
none. -/
structure GatedSession where
  runstate : Runstate
  connections : Nat
  deriving DecidableEq, Repr

/-- Modelled from the spec: the `Runstate` gate of `connect` is absent
from this source snapshot (`connect`'s docstring declares
`:raise StateError: When the Runstate is not IDLE` but the check itself
is not in `src`).  Per spec §4.1, `connect` is valid only from `IDLE`,
transitions IDLE→CONNECTING→RUNNING on success, and fails with
`StateError` otherwise, starting no new connection. -/
def spec_connect (s : GatedSession) : GatedSession × Option Exc :=
  if s.runstate = .IDLE then
    ({ runstate := .RUNNING, connections := s.connections + 1 }, none)
  else (s, some .stateError)

/-! Shared helper lemmas. -/

/-- A quiesced handle is erased to `none` without tripping the assertion. -/
theorem paranoidTaskErase_quiesced (t : Option Task)
    (h : handleQuiesced t = true) : paranoidTaskErase t = .ok none := by
  cases t with
  | none => rfl
  | some tk =>
    simp only [handleQuiesced] at h
    simp [paranoidTaskErase, h]

/-- With every handle quiesced, `_cleanup` fully resets the session. -/
theorem cleanup_quiesced (s : ProtocolState)
    (h1 : handleQuiesced s.dc_task = true)
    (h2 : handleQuiesced s.reader_task = true)
    (h3 : handleQuiesced s.writer_task = true)
    (h4 : handleQuiesced s.bh_tasks = true) :
    cleanup s = .ok { s with dc_task := none, reader_task := none,
                             writer_task := none, bh_tasks := none,
                             reader := false, writer := none } := by
  simp only [cleanup, paranoidTaskErase_quiesced _ h1,
             paranoidTaskErase_quiesced _ h2, paranoidTaskErase_quiesced _ h3,
             paranoidTaskErase_quiesced _ h4]
  rfl

/-- The `_bh_tasks` aggregate is done once both loop results are in. -/
theorem gatherTask_done (r w : TaskResult) : (gatherTask r w).done = true := by
  cases hg : gatherFirstFailure r w <;> simp [gatherTask, hg, Task.done]

/-- Awaiting the aggregate re-raises exactly the first loop failure. -/
theorem awaitTask_gatherTask (r w : TaskResult) :
    awaitTask (gatherTask r w) = gatherFirstFailure r w := by
  cases hg : gatherFirstFailure r w <;> simp [gatherTask, hg, awaitTask]

/-- On a handle not in the cancelled state, the `_exception` helper
returns normally with `taskExcOk`. -/
theorem taskExc_of_notCancelled (t : Option Task)
    (h : notCancelledState t = true) : taskExc t = .ok (taskExcOk t) := by
  cases t with
  | none => rfl
  | some tk =>
    obtain ⟨res⟩ := tk
    cases res with
    | none => rfl
    | some r =>
      cases r with
      | ok => rfl
      | error e => rfl
      | cancelled => simp [notCancelledState] at h

/-! Theorems settling the claims. -/

/-- C10: for every call to `flush` on a stream writer, the write-buffer
limits are set to `(0, 0)` before draining and the originally read
limits are restored afterwards on every exit path, including when
`drain` raises; a successful flush empties the buffer entirely (the
evidence that the high-water mark was 0 during the drain), and a failed
one leaves the writer exactly as it was, limits included. -/
theorem flush_frame (w : StreamWriter) (df : Option Exc) :
    ((flush w df).1.low = w.low ∧ (flush w df).1.high = w.high) ∧
    flush w none = ({ w with buffered := 0 }, none) ∧
    (∀ e, flush w (some e) = (w, some e)) := by
  have hnone : flush w none = ({ w with buffered := 0 }, none) := by
    simp [flush, drain]
  have hsome : ∀ e, flush w (some e) = (w, some e) := by
    intro e
    simp [flush, drain]
  refine ⟨?_, hnone, hsome⟩
  cases df with
  | none =>
    rw [hnone]
    exact ⟨rfl, rfl⟩
  | some e =>
    rw [hsome e]
    exact ⟨rfl, rfl⟩

/-- C7: scheduling a disconnect is idempotent — the first trigger creates
the single disconnect task, any trigger finding the handle set observes
the existing task and changes nothing, re-scheduling is absorbed, and
after a trigger a disconnect task always exists. -/
theorem schedule_disconnect_idempotent (s : ProtocolState) (f1 f2 : Task) :
    (s.dc_task = none →
        schedule_disconnect s f1 = { s with dc_task := some f1 }) ∧
    (∀ t, s.dc_task = some t →
        schedule_disconnect s f1 = s ∧
        (schedule_disconnect s f1).dc_task = some t) ∧
    schedule_disconnect (schedule_disconnect s f1) f2 =
      schedule_disconnect s f1 ∧
    ((schedule_disconnect s f1).dc_task).isSome = true := by
  cases hdc : s.dc_task with
  | none =>
    refine ⟨fun _ => by simp [schedule_disconnect, hdc], fun t ht => ?_,
            by simp [schedule_disconnect, hdc],
            by simp [schedule_disconnect, hdc]⟩
    exact absurd ht (by simp)
  | some t0 =>
    refine ⟨fun h => absurd h (by simp), fun t ht => ?_,
            by simp [schedule_disconnect, hdc],
            by simp [schedule_disconnect, hdc]⟩
    obtain rfl : t0 = t := Option.some.inj ht
    exact ⟨by simp [schedule_disconnect, hdc], by simp [schedule_disconnect, hdc]⟩

/-- C7 witness at a concrete session. -/
theorem schedule_disconnect_idempotent_witness :
    schedule_disconnect initState ⟨some .ok⟩ =
      { initState with dc_task := some ⟨some .ok⟩ } :=
  (schedule_disconnect_idempotent initState ⟨some .ok⟩ ⟨none⟩).1 rfl

/-- C4: a reader/writer loop terminated by a cooperative cancellation
signal exits cleanly with no error and schedules nothing, so the join
outcome for a cancelled loop is the other loop's contribution alone; a
loop terminated by any other fault first schedules a disconnect
(idempotently, via `schedule_disconnect`) and then re-raises that fault,
which becomes the loop task's single captured exception. -/
theorem loop_termination_discipline (s : ProtocolState) (fresh : Task)
    (e : Exc) :
    bh_loop_forever s fresh .cancelled = (s, none) ∧
    (e ≠ .cancelled →
        bh_loop_forever s fresh e = (schedule_disconnect s fresh, some e)) ∧
    (∀ w : TaskResult, gatherFirstFailure .ok w = resultFailure w) ∧
    (∀ r : TaskResult, gatherFirstFailure r .ok = resultFailure r) := by
  refine ⟨by simp [bh_loop_forever], ?_, ?_, ?_⟩
  · intro h
    simp [bh_loop_forever, h]
  · intro w
    simp [gatherFirstFailure, resultFailure]
  · intro r
    cases r <;> simp [gatherFirstFailure, resultFailure]

/-- C4 witness: an `OSError`-terminated loop schedules the disconnect and
re-raises. -/
theorem loop_termination_discipline_witness :
    bh_loop_forever initState ⟨none⟩ (.oserror 3) =
      (schedule_disconnect initState ⟨none⟩, some (.oserror 3)) :=
  (loop_termination_discipline initState ⟨none⟩ (.oserror 3)).2.1 (by decide)

/-- C8: a writer-loop iteration dequeues one message, attempts the send,
and marks the item consumed exactly once whether the send primitive
succeeds or raises; the trace shows the `task_done` call strictly after
the send attempt, so no message leaves the outstanding count before a
send attempt has been made for it. -/
theorem send_message_consumed_once (q : OutQueue Msg) (m : Msg)
    (rest : List Msg) (sendExc : Msg → Option Exc)
    (hq : q.items = m :: rest) (hu : q.unfinished ≠ 0) :
    bh_send_message q sendExc =
      some (⟨rest, q.unfinished - 1⟩, sendExc m,
            [.dequeue m, .sendAttempt m (sendExc m), .taskDoneCall]) ∧
    List.count SendEvent.taskDoneCall
        [SendEvent.dequeue m, SendEvent.sendAttempt m (sendExc m),
         SendEvent.taskDoneCall] = 1 := by
  obtain ⟨items, unf⟩ := q
  simp only at hq hu
  subst hq
  constructor
  · simp [bh_send_message, OutQueue.taskDone, hu]
  · simp [List.count_cons]

/-- C8 witness: one message, failing send; the item is still consumed. -/
theorem send_message_consumed_once_witness :
    bh_send_message ⟨[5], 2⟩ (fun _ => some (.oserror 9)) =
      some (⟨[], 1⟩, some (.oserror 9),
            [.dequeue 5, .sendAttempt 5 (some (.oserror 9)),
             .taskDoneCall]) :=
  (send_message_consumed_once ⟨[5], 2⟩ 5 [] (fun _ => some (.oserror 9))
    rfl (by decide)).1

/-- C9: cleanup erases a task handle only when it is absent or its task
is confirmed done; on an unfinished task the completion assertion raises
(so the erase is unreachable) and even the post-assertion erase
expression hands the unfinished task back rather than discarding it, and
`_cleanup` as a whole raises instead of orphaning the task. -/
theorem cleanup_erase_discipline (t : Option Task) :
    (paranoidTaskErase t = .ok none ↔ handleQuiesced t = true) ∧
    (handleQuiesced t = false →
        paranoidTaskErase t = .error .assertionError ∧ eraseExpr t = t) ∧
    (∀ s : ProtocolState, s.dc_task = t → handleQuiesced t = false →
        cleanup s = .error .assertionError) := by
  have herr : handleQuiesced t = false →
      paranoidTaskErase t = .error .assertionError ∧ eraseExpr t = t := by
    intro hf
    cases t with
    | none => simp [handleQuiesced] at hf
    | some tk =>
      simp only [handleQuiesced] at hf
      simp [paranoidTaskErase, eraseExpr, hf]
  refine ⟨?_, herr, ?_⟩
  · cases t with
    | none => simp [paranoidTaskErase, handleQuiesced]
    | some tk =>
      cases htk : tk.done <;>
        simp [paranoidTaskErase, handleQuiesced, htk]
  · intro s hs hf
    simp only [cleanup, hs, (herr hf).1]
    rfl

/-- C9 witness: an unfinished task trips the assertion and is not
discarded by the erase expression. -/
theorem cleanup_erase_discipline_witness :
    paranoidTaskErase (some ⟨none⟩) = .error .assertionError ∧
      eraseExpr (some ⟨none⟩) = some ⟨none⟩ :=
  (cleanup_erase_discipline (some ⟨none⟩)).2.1 (by decide)

/-- C1: on a session whose runstate is not IDLE — in particular one on
which `connect` has already succeeded with no intervening disconnect —
`connect` raises `StateError`, leaves the session untouched and starts
no new connection.  (The gate is modelled from the spec; see
`spec_connect`.) -/
theorem connect_requires_idle (s t : GatedSession)
    (hs : s.runstate ≠ .IDLE) (ht : (spec_connect t).2 = none) :
    spec_connect s = (s, some .stateError) ∧
    (spec_connect s).1.connections = s.connections ∧
    (spec_connect (spec_connect t).1).2 = some .stateError := by
  have h1 : spec_connect s = (s, some .stateError) := by
    simp [spec_connect, hs]
  refine ⟨h1, by rw [h1], ?_⟩
  by_cases hti : t.runstate = .IDLE
  · simp [spec_connect, hti]
  · simp [spec_connect, hti] at ht

/-- C1 witness: a RUNNING session rejects `connect` with `StateError`. -/
theorem connect_requires_idle_witness :
    spec_connect ⟨.RUNNING, 1⟩ = (⟨.RUNNING, 1⟩, some .stateError) :=
  (connect_requires_idle ⟨.RUNNING, 1⟩ ⟨.IDLE, 0⟩ (by decide) (by decide)).1

/-- C2: any failure during the connection or session phase makes
`_new_session` run the full disconnect path before raising; with the
disconnect completing, a `CancelledError` or a non-`Exception`
`BaseException` is re-raised unwrapped (taking priority over wrapping),
and every ordinary `Exception` is raised wrapped in a `ConnectError`
whose root cause is the original failure. -/
theorem connect_failure_propagation (conn sess : Except Exc Unit) (err : Exc)
    (h : conn = .error err ∨ (conn = .ok () ∧ sess = .error err)) :
    (new_session conn sess (.ok ())).1 = true ∧
    (err = .cancelled → (new_session conn sess (.ok ())).2 = .error err) ∧
    (err.isException = false →
        (new_session conn sess (.ok ())).2 = .error err) ∧
    (err ≠ .cancelled → err.isException = true →
        ∃ msg, (new_session conn sess (.ok ())).2 =
          .error (.connectError msg err)) := by
  have hcases : ∀ phase : String,
      (err = .cancelled →
        connect_failure_handler phase err (.ok ()) = .error err) ∧
      (err.isException = false →
        connect_failure_handler phase err (.ok ()) = .error err) ∧
      (err ≠ .cancelled → err.isException = true →
        connect_failure_handler phase err (.ok ()) =
          .error (.connectError ("Failed to establish " ++ phase) err)) := by
    intro phase
    refine ⟨fun hcan => by simp [connect_failure_handler, hcan], ?_, ?_⟩
    · intro hne
      by_cases hcan : err = .cancelled
      · simp [connect_failure_handler, hcan]
      · simp [connect_failure_handler, hcan, hne]
    · intro hcan hex
      simp [connect_failure_handler, hcan, hex]
  rcases h with hc | ⟨hc, hsx⟩
  · subst hc
    exact ⟨rfl, fun hcan => (hcases "connection").1 hcan,
           fun hne => (hcases "connection").2.1 hne,
           fun hcan hex => ⟨_, (hcases "connection").2.2 hcan hex⟩⟩
  · subst hc
    subst hsx
    exact ⟨rfl, fun hcan => (hcases "session").1 hcan,
           fun hne => (hcases "session").2.1 hne,
           fun hcan hex => ⟨_, (hcases "session").2.2 hcan hex⟩⟩

/-- C2 witness: an `OSError` in the connection phase is wrapped in a
`ConnectError` after the disconnect path ran. -/
theorem connect_failure_propagation_witness :
    (new_session (.error (.oserror 7)) (.ok ()) (.ok ())).1 = true ∧
    ∃ msg, (new_session (.error (.oserror 7)) (.ok ()) (.ok ())).2 =
      .error (.connectError msg (.oserror 7)) :=
  ⟨(connect_failure_propagation (.error (.oserror 7)) (.ok ())
      (.oserror 7) (Or.inl rfl)).1,
   (connect_failure_propagation (.error (.oserror 7)) (.ok ())
      (.oserror 7) (Or.inl rfl)).2.2.2 (by decide) (by decide)⟩

/-- C5: with a live writer task and an attached stream, a graceful
teardown (neither loop task done, so `_bh_disconnect` passes
`force = false`) first joins the outgoing queue, then flushes the
stream, and only then cancels and waits on the writer task; a forced
teardown (`force = true`, because some loop task is already done) skips
the drain and flush and cancels immediately; and the flush used empties
the buffer completely on success because the high-water mark is lowered
to 0 for the drain. -/
theorem stop_writer_graceful_vs_forced (s : ProtocolState) (wt : Task)
    (w : StreamWriter) (hwt : s.writer_task = some wt)
    (hnd : wt.done = false) (hw : s.writer = some w) :
    (taskDone s.reader_task = false →
        (taskDone s.reader_task || taskDone s.writer_task) = false) ∧
    bh_stop_writer s false =
      [.queueJoin, .flushWriter, .cancelWriter, .waitWriter] ∧
    (taskDone s.reader_task = true →
        (taskDone s.reader_task || taskDone s.writer_task) = true) ∧
    bh_stop_writer s true = [.cancelWriter, .waitWriter] ∧
    (∀ v, flush v none = ({ v with buffered := 0 }, none)) := by
  refine ⟨?_, ?_, ?_, ?_, ?_⟩
  · intro hr
    rw [hr, hwt, Bool.false_or]
    simpa [taskDone, Task.done] using hnd
  · simp [bh_stop_writer, hwt, hnd, hw]
  · intro hr
    simp [hr]
  · simp [bh_stop_writer, hwt, hnd]
  · intro v
    simp [flush, drain]

/-- C5 witness: a session with pending loop tasks and an attached stream
drains and flushes before cancelling. -/
theorem stop_writer_graceful_vs_forced_witness :
    bh_stop_writer
      { initState with writer_task := some ⟨none⟩,
                       reader_task := some ⟨none⟩,
                       writer := some ⟨16, 64, 3, false⟩ } false =
      [.queueJoin, .flushWriter, .cancelWriter, .waitWriter] :=
  (stop_writer_graceful_vs_forced _ ⟨none⟩ ⟨16, 64, 3, false⟩
    rfl rfl rfl).2.1

/-- C3: once every task handle is quiesced (as they are when awaiting
the disconnect task has completed), `_wait_disconnect` runs cleanup on
every exit path and returns the session fully reset — transport handle
and all four task handles empty — while re-raising exactly the
disconnect task's own failure or, when it returned normally, the first
failure captured from the reader/writer loops by the `_bh_tasks`
aggregate (and nothing else). -/
theorem wait_disconnect_always_cleans (s : ProtocolState) (dct : Task)
    (hdc : s.dc_task = some dct) (hdone : dct.done = true)
    (h2 : handleQuiesced s.reader_task = true)
    (h3 : handleQuiesced s.writer_task = true)
    (h4 : handleQuiesced s.bh_tasks = true) :
    wait_disconnect s = .ok
      ({ s with dc_task := none, reader_task := none, writer_task := none,
                bh_tasks := none, reader := false, writer := none },
       match awaitTask dct with
       | some e => some e
       | none =>
         match s.bh_tasks with
         | none => none
         | some bt => awaitTask bt) ∧
    (∀ r w2, awaitTask (gatherTask r w2) = gatherFirstFailure r w2) := by
  have h1 : handleQuiesced s.dc_task = true := by
    rw [hdc]
    simpa [handleQuiesced] using hdone
  have hc := cleanup_quiesced s h1 h2 h3 h4
  refine ⟨?_, awaitTask_gatherTask⟩
  simp only [wait_disconnect, hdc, hc]

/-- C3 witness: a session whose disconnect task finished cleanly is
reset to the initial state with nothing re-raised. -/
theorem wait_disconnect_always_cleans_witness :
    wait_disconnect { initState with dc_task := some ⟨some .ok⟩ } =
      .ok (initState, none) := by
  have h := (wait_disconnect_always_cleans
      { initState with dc_task := some ⟨some .ok⟩ } ⟨some .ok⟩
      rfl rfl (by decide) (by decide) (by decide)).1
  simpa using h

/-- C6 as stated is false: a close fault that is the identical exception
already captured from the reader task is nevertheless not suppressed
when it is not an `Exception` instance (the handler is
`except Exception`), e.g. a `BaseException` with id 5 captured from the
reader and re-raised by `wait_closed` propagates instead of being
suppressed. -/
theorem close_suppression_identity_ce :
    ¬ (close_except_handler (.baseError 5)
        (some ⟨some (.error (.baseError 5))⟩) (some ⟨some .ok⟩) = none) := by
  decide

/-- C6 amended: with the loop-task handles not in the cancelled state, a
close fault is suppressed if and only if it is an ordinary `Exception`
identical to the exception captured from the reader or the writer task
(a non-`Exception` fault always propagates); whatever happens, what
escapes is the close fault itself or nothing; and consequently when the
reader loop failed with an ordinary `Exception` F, the writer completed
cleanly and the transport close re-raises that same F, the close path
suppresses it and the disconnect/wait cycle re-raises exactly F, exactly
once. -/
theorem close_suppression_amended (err : Exc) (rt wt : Option Task)
    (hrt : notCancelledState rt = true) (hwt : notCancelledState wt = true) :
    (close_except_handler err rt wt = none ↔
        (err.isException = true ∧
          (taskExcOk rt = some err ∨ taskExcOk wt = some err))) ∧
    (close_except_handler err rt wt = none ∨
        close_except_handler err rt wt = some err) ∧
    (∀ (F : Exc) (s2 : ProtocolState), F.isException = true →
        s2.dc_task = some ⟨some .ok⟩ →
        s2.reader_task = some ⟨some (.error F)⟩ →
        s2.writer_task = some ⟨some .ok⟩ →
        s2.bh_tasks = some (gatherTask (.error F) .ok) →
        close_except_handler F s2.reader_task s2.writer_task = none ∧
        wait_disconnect s2 = .ok
          ({ s2 with dc_task := none, reader_task := none,
                     writer_task := none, bh_tasks := none,
                     reader := false, writer := none },
           some F)) := by
  have hred : close_except_handler err rt wt =
      (if !err.isException then some err
       else if taskExcOk rt = some err then none
       else if taskExcOk wt = some err then none else some err) := by
    unfold close_except_handler
    rw [taskExc_of_notCancelled rt hrt, taskExc_of_notCancelled wt hwt]
  refine ⟨?_, ?_, ?_⟩
  · rw [hred]
    by_cases hE : err.isException <;>
      by_cases hR : taskExcOk rt = some err <;>
      by_cases hW : taskExcOk wt = some err <;>
      simp [hE, hR, hW]
  · rw [hred]
    by_cases hE : err.isException <;>
      by_cases hR : taskExcOk rt = some err <;>
      by_cases hW : taskExcOk wt = some err <;>
      simp [hE, hR, hW]
  · intro F s2 hF hdc2 hr2 hw2 hbt2
    refine ⟨?_, ?_⟩
    · rw [hr2, hw2]
      simp [close_except_handler, taskExc, hF]
    · have h1 : handleQuiesced s2.dc_task = true := by
        rw [hdc2]
        rfl
      have h2 : handleQuiesced s2.reader_task = true := by
        rw [hr2]
        rfl
      have h3 : handleQuiesced s2.writer_task = true := by
        rw [hw2]
        rfl
      have h4 : handleQuiesced s2.bh_tasks = true := by
        rw [hbt2]
        simpa [handleQuiesced] using gatherTask_done (.error F) .ok
      have hc := cleanup_quiesced s2 h1 h2 h3 h4
      have hgt : gatherTask (.error F) .ok = ⟨some (.error F)⟩ := rfl
      simp [wait_disconnect, hdc2, hc, hbt2, hgt, awaitTask]

/-- C6 amended witness: an `OSError` captured from the reader and
re-raised by the transport close is suppressed. -/
theorem close_suppression_amended_witness :
    close_except_handler (.oserror 3) (some ⟨some (.error (.oserror 3))⟩)
      (some ⟨some .ok⟩) = none :=
  (close_suppression_amended (.oserror 3)
    (some ⟨some (.error (.oserror 3))⟩) (some ⟨some .ok⟩)
    (by decide) (by decide)).1.mpr (by decide)

end AQMP
